import Mathlib

/-!
Shallow embedding of `client/src/components/user-profile-modal.tsx`
(UserProfileModal): the view/edit mode state machine, the two validated
form pipelines (profile update, PIN rotation), the profile sync effect,
and the close/reset effect.  The React component state is modelled as an
explicit `DialogState`; every event handler of the component becomes a
case of a `step` function returning the successor state together with
the externally observable `Output` (network requests issued, toasts
emitted, cache invalidations requested, validation errors surfaced).
-/

namespace UserProfileModal

/-- Field-level validation issue, as produced by the zod resolver:
`field` is the path the issue is attached to, `message` the
human-readable text. -/
structure FieldError where
  field : String
  message : String
deriving Repr, DecidableEq

/-- `ProfileForm` working state (`profileForm` in the source), the three
editable profile fields; react-hook-form default values are `""`. -/
structure ProfileForm where
  fullName : String
  email : String
  mobile : String
deriving Repr, DecidableEq

/-- `PasswordForm` working state (`passwordForm` in the source): the PIN
rotation form; defaults are `""`. -/
structure PasswordForm where
  currentPassword : String
  newPassword : String
  confirmPassword : String
deriving Repr, DecidableEq

/-- The `UserProfile` interface of the source: the server-owned profile
record, every field optional. -/
structure UserProfile where
  fullName : Option String
  email : Option String
  mobile : Option String
  lastLogin : Option String
deriving Repr, DecidableEq

/-- react-hook-form `defaultValues` for the profile form. -/
def defaultProfileForm : ProfileForm := { fullName := "", email := "", mobile := "" }

/-- react-hook-form `defaultValues` for the password form; `reset()`
with no argument restores these. -/
def defaultPasswordForm : PasswordForm :=
  { currentPassword := "", newPassword := "", confirmPassword := "" }

/-- `field || ""` applied to an optional server field, as in
`userProfile.fullName || ""`: an absent field becomes `""` (for strings
JavaScript `x || ""` and `Option.getD ""` agree, since the only falsy
string is `""` itself). -/
def orEmpty (o : Option String) : String := o.getD ""

/-- The form produced by `profileForm.reset({fullName: r.fullName || "",
email: r.email || "", mobile: r.mobile || ""})`, used both by the sync
effect and by the profile-update success handler. -/
def formOfRecord (r : UserProfile) : ProfileForm :=
  { fullName := orEmpty r.fullName, email := orEmpty r.email, mobile := orEmpty r.mobile }

/-! ## The email grammar of `z.string().email(...)`

zod's email check is the anchored, case-insensitive pattern

  (?!\.)(?!.*\.\.)([A-Z0-9_'+\-\.]*)[A-Z0-9_+-]@([A-Z0-9][A-Z0-9\-]*\.)+[A-Z]{2,}

i.e. a local part of allowed characters ending in an alphanumeric, `_`,
`+` or `-`, not starting with a dot and containing no `..`, one `@`, and
a domain of one or more alphanumeric-started labels followed by an
alphabetic top-level label of length at least two. -/

/-- Characters allowed anywhere in the local part. -/
def isLocalChar (c : Char) : Bool :=
  c.isAlphanum || c = '_' || c = '\'' || c = '+' || c = '-' || c = '.'

/-- Characters allowed as the final character of the local part. -/
def isLocalLastChar (c : Char) : Bool :=
  c.isAlphanum || c = '_' || c = '+' || c = '-'

/-- Characters allowed after the first character of a domain label. -/
def isDomainChar (c : Char) : Bool :=
  c.isAlphanum || c = '-'

/-- Splitting at a separator character, `["", ""]`-style on an empty
input, mirroring the grouping the anchored regex induces. -/
def splitOnChar (c : Char) : List Char → List (List Char)
  | [] => [[]]
  | a :: rest =>
      if a = c then [] :: splitOnChar c rest
      else
        match splitOnChar c rest with
        | [] => [[a]]
        | h :: t => (a :: h) :: t

/-- The `(?!\.)` lookahead: the string starts with a dot. -/
def startsWithDot : List Char → Bool
  | '.' :: _ => true
  | _ => false

/-- The `(?!.*\.\.)` lookahead: two consecutive dots somewhere. -/
def hasDoubleDot : List Char → Bool
  | c₁ :: c₂ :: rest => (c₁ = '.' && c₂ = '.') || hasDoubleDot (c₂ :: rest)
  | _ => false

/-- `([A-Z0-9_'+\-\.]*)[A-Z0-9_+-]`: non-empty, all leading characters
local characters, last character a local-last character. -/
def localPartOk : List Char → Bool
  | [] => false
  | [c] => isLocalLastChar c
  | c :: rest => isLocalChar c && localPartOk rest

/-- `[A-Z0-9][A-Z0-9\-]*`: a non-final domain label. -/
def labelOk : List Char → Bool
  | [] => false
  | c :: rest => c.isAlphanum && rest.all isDomainChar

/-- `[A-Z]{2,}`: the final (top-level) domain label. -/
def tldOk (l : List Char) : Bool :=
  2 ≤ l.length && l.all Char.isAlpha

/-- `([A-Z0-9][A-Z0-9\-]*\.)+[A-Z]{2,}`: at least one ordinary label,
then the top-level label. -/
def domainOk (d : List Char) : Bool :=
  let parts := splitOnChar '.' d
  2 ≤ parts.length && parts.dropLast.all labelOk && tldOk (parts.getLastD [])

/-- zod's email predicate: exactly one `@` (neither character class
admits it), the two lookaheads, the local part and the domain. -/
def isValidEmail (s : String) : Bool :=
  match splitOnChar '@' s.data with
  | [lp, dom] =>
      !(startsWithDot s.data) && !(hasDoubleDot s.data) && localPartOk lp && domainOk dom
  | _ => false

/-! ## Validation rules (`profileSchema`, `passwordSchema`) -/

/-- `z.string().email("Invalid email address").optional().or(z.literal(""))`
applied to an optional field value: `undefined` passes via `.optional()`,
`""` passes via the `z.literal("")` branch, anything else must satisfy
the email grammar. -/
def emailFieldErrors : Option String → List FieldError
  | none => []
  | some e =>
      if e = "" || isValidEmail e then []
      else [{ field := "email", message := "Invalid email address" }]

/-- `profileSchema` on an arbitrary candidate object: `fullName` and
`mobile` are `z.string().optional()` and never fail, only the email rule
can produce an issue. -/
def profileSchemaIssues (_fullName email _mobile : Option String) : List FieldError :=
  emailFieldErrors email

/-- `profileSchema` applied to the form state (react-hook-form always
submits the three string fields). -/
def profileSchemaErrors (f : ProfileForm) : List FieldError :=
  profileSchemaIssues (some f.fullName) (some f.email) (some f.mobile)

/-- `passwordSchema`: three `min`-checks on the object, then the
`.refine` cross-field rule with `path: ["confirmPassword"]` and message
"PINs don't match".  In zod v3's synchronous parse a failed string check
marks the result dirty but does not abort, so the refinement still runs
and its issue is appended after the object-level issues. -/
def passwordSchemaErrors (f : PasswordForm) : List FieldError :=
  (if f.currentPassword.length ≥ 1 then []
   else [{ field := "currentPassword", message := "Current PIN is required" }]) ++
  (if f.newPassword.length ≥ 4 then []
   else [{ field := "newPassword", message := "PIN must be at least 4 characters" }]) ++
  (if f.confirmPassword.length ≥ 1 then []
   else [{ field := "confirmPassword", message := "Confirm PIN is required" }]) ++
  (if f.newPassword = f.confirmPassword then []
   else [{ field := "confirmPassword", message := "PINs don't match" }])

/-! ## Mode state machine and dialog state

The source keeps `viewMode : "view" | "edit" | "password"`, but
`setViewMode` is only ever called with `"view"` or `"edit"`; the
edit-profile / edit-PIN distinction lives in the `Tabs` component
(`defaultValue="profile"`), which mounts fresh each time the edit
surface renders.  The spec's three modes map onto this as
View = `"view"`, EditProfile = `"edit"` with the profile tab active,
EditPin = `"edit"` with the password tab active; we model the mode
together with the active tab so that illegal combinations are
unrepresentable. -/

/-- The active tab of the edit surface. -/
inductive Tab
  | profile
  | password
deriving Repr, DecidableEq

/-- The mode of the dialog: `view`, or the edit surface with one tab
active. -/
inductive Mode
  | view
  | edit (tab : Tab)
deriving Repr, DecidableEq

/-- The component state: the `open` prop as seen by the effects, the
mode, the two form states and the two mutations' pending flags. -/
structure DialogState where
  dialogOpen : Bool
  mode : Mode
  profileForm : ProfileForm
  passwordForm : PasswordForm
  profilePending : Bool
  passwordPending : Bool
deriving Repr, DecidableEq

/-- Initial component state: dialog closed, `viewMode = "view"`, both
forms at their default values, no mutation in flight. -/
def initialState : DialogState :=
  { dialogOpen := false,
    mode := Mode.view,
    profileForm := defaultProfileForm,
    passwordForm := defaultPasswordForm,
    profilePending := false,
    passwordPending := false }

/-- A toast, as passed to `toast({...})`. -/
structure Toast where
  title : String
  description : Option String
  variant : Option String
deriving Repr, DecidableEq

/-- A network request issued by a mutation function.  `patchPassword`
carries exactly the payload of the source's PIN mutation:
`{currentPin: data.currentPassword, newPin: data.newPassword}`. -/
inductive Request
  | patchProfile (url : String) (body : ProfileForm)
  | patchPassword (url : String) (currentPin newPin : String)
deriving Repr, DecidableEq

/-- The query key `["/api/users", user?.id, "profile"]`. -/
def profileQueryKey (uid : String) : List String :=
  ["/api/users", uid, "profile"]

/-- Externally observable effects of one event: requests issued, toasts
emitted, cache invalidations requested, and the per-field validation
errors surfaced inline by a failed resolver run. -/
structure Output where
  requests : List Request
  toasts : List Toast
  invalidations : List (List String)
  fieldErrors : List FieldError
deriving Repr, DecidableEq

/-- The empty output: an event with no observable effect. -/
def Output.none : Output :=
  { requests := [], toasts := [], invalidations := [], fieldErrors := [] }

/-- `toast({ title: "Profile updated successfully" })`. -/
def profileSuccessToast : Toast :=
  { title := "Profile updated successfully", description := none, variant := none }

/-- `toast({ title: "Error updating profile", description: error.message, variant: "destructive" })`. -/
def profileErrorToast (msg : String) : Toast :=
  { title := "Error updating profile", description := some msg, variant := some "destructive" }

/-- `toast({ title: "Security PIN updated successfully" })`. -/
def pinSuccessToast : Toast :=
  { title := "Security PIN updated successfully", description := none, variant := none }

/-- `toast({ title: "Error updating Security PIN", description: error.message, variant: "destructive" })`. -/
def pinErrorToast (msg : String) : Toast :=
  { title := "Error updating Security PIN", description := some msg, variant := some "destructive" }

/-- Which profile field an edit-surface input writes. -/
inductive ProfileField
  | fullName
  | email
  | mobile
deriving Repr, DecidableEq

/-- Which password field an edit-surface input writes. -/
inductive PinField
  | currentPassword
  | newPassword
  | confirmPassword
deriving Repr, DecidableEq

/-- Writing one profile input field. -/
def ProfileForm.setField (f : ProfileForm) : ProfileField → String → ProfileForm
  | ProfileField.fullName, v => { f with fullName := v }
  | ProfileField.email, v => { f with email := v }
  | ProfileField.mobile, v => { f with mobile := v }

/-- Writing one password input field. -/
def PasswordForm.setField (f : PasswordForm) : PinField → String → PasswordForm
  | PinField.currentPassword, v => { f with currentPassword := v }
  | PinField.newPassword, v => { f with newPassword := v }
  | PinField.confirmPassword, v => { f with confirmPassword := v }

/-- The events the component reacts to.  UI events correspond to the
handlers wired in the JSX; `fetchResolved` is the `useEffect` on
`userProfile`; `hostSetOpen false` is the host closing the dialog (the
`useEffect` on `open`, also reached through `handleClose`, which calls
`onOpenChange(false)` and `setViewMode("view")`); the four resolution
events are the mutations' `onSuccess` / `onError` callbacks. -/
inductive Event
  | hostSetOpen (b : Bool)
  | clickEditProfile
  | selectTab (t : Tab)
  | clickCancel
  | typeProfile (f : ProfileField) (v : String)
  | typePin (f : PinField) (v : String)
  | submitProfile
  | submitPassword
  | fetchResolved (r : UserProfile)
  | profileSuccess (d : UserProfile)
  | profileError (msg : String)
  | passwordSuccess
  | passwordError (msg : String)
deriving Repr, DecidableEq

/-- One step of the component.  `uid` is `user.id` from the
authentication context.  Buttons that the JSX renders only in a given
mode, or renders disabled (`disabled={mutation.isPending}`), are
modelled as guards: their events are no-ops outside the rendering
condition.  Mutation resolutions are guarded only by their own pending
flag — they apply even after the dialog was closed or the mode switched,
matching the source's fire-and-forget behavior. -/
def step (uid : String) (s : DialogState) : Event → DialogState × Output
  | Event.hostSetOpen b =>
      if b then
        -- opening changes no component state; the `!open` effect does not fire
        ({ s with dialogOpen := true }, Output.none)
      else
        -- `useEffect`: `if (!open) { setViewMode("view"); passwordForm.reset(); }`
        ({ s with dialogOpen := false, mode := Mode.view, passwordForm := defaultPasswordForm },
          Output.none)
  | Event.clickEditProfile =>
      -- `button-edit-profile`, rendered only in view mode; Tabs mount on "profile"
      if s.dialogOpen && s.mode = Mode.view then
        ({ s with mode := Mode.edit Tab.profile }, Output.none)
      else (s, Output.none)
  | Event.selectTab t =>
      -- `tab-profile` / `tab-password`, rendered only on the edit surface
      match s.mode with
      | Mode.edit _ => ({ s with mode := Mode.edit t }, Output.none)
      | Mode.view => (s, Output.none)
  | Event.clickCancel =>
      -- `button-cancel-profile` / `button-cancel-password`: `setViewMode("view")`
      match s.mode with
      | Mode.edit _ => ({ s with mode := Mode.view }, Output.none)
      | Mode.view => (s, Output.none)
  | Event.typeProfile f v =>
      -- profile inputs exist only on the profile tab of the edit surface
      if s.dialogOpen && s.mode = Mode.edit Tab.profile then
        ({ s with profileForm := s.profileForm.setField f v }, Output.none)
      else (s, Output.none)
  | Event.typePin f v =>
      if s.dialogOpen && s.mode = Mode.edit Tab.password then
        ({ s with passwordForm := s.passwordForm.setField f v }, Output.none)
      else (s, Output.none)
  | Event.submitProfile =>
      -- `button-save-profile`: `disabled={updateProfileMutation.isPending}`;
      -- `handleSubmit(onProfileSubmit)` runs the resolver first
      if s.dialogOpen && s.mode = Mode.edit Tab.profile && !s.profilePending then
        match profileSchemaErrors s.profileForm with
        | [] =>
            ({ s with profilePending := true },
              { Output.none with
                  requests := [Request.patchProfile ("/api/users/" ++ uid ++ "/profile")
                    s.profileForm] })
        | errs => (s, { Output.none with fieldErrors := errs })
      else (s, Output.none)
  | Event.submitPassword =>
      -- `button-update-password`: `disabled={updatePasswordMutation.isPending}`
      if s.dialogOpen && s.mode = Mode.edit Tab.password && !s.passwordPending then
        match passwordSchemaErrors s.passwordForm with
        | [] =>
            ({ s with passwordPending := true },
              { Output.none with
                  requests := [Request.patchPassword ("/api/users/" ++ uid ++ "/password")
                    s.passwordForm.currentPassword s.passwordForm.newPassword] })
        | errs => (s, { Output.none with fieldErrors := errs })
      else (s, Output.none)
  | Event.fetchResolved r =>
      -- `useEffect`: `if (userProfile) { profileForm.reset({... || ""}) }`
      ({ s with profileForm := formOfRecord r }, Output.none)
  | Event.profileSuccess d =>
      if s.profilePending then
        ({ s with profilePending := false, profileForm := formOfRecord d, mode := Mode.view },
          { Output.none with
              invalidations := [profileQueryKey uid],
              toasts := [profileSuccessToast] })
      else (s, Output.none)
  | Event.profileError msg =>
      if s.profilePending then
        ({ s with profilePending := false },
          { Output.none with toasts := [profileErrorToast msg] })
      else (s, Output.none)
  | Event.passwordSuccess =>
      if s.passwordPending then
        ({ s with passwordPending := false, passwordForm := defaultPasswordForm,
                  mode := Mode.view },
          { Output.none with toasts := [pinSuccessToast] })
      else (s, Output.none)
  | Event.passwordError msg =>
      if s.passwordPending then
        ({ s with passwordPending := false },
          { Output.none with toasts := [pinErrorToast msg] })
      else (s, Output.none)

/-! ## Presentation projection of the two submit buttons -/

/-- `disabled={updateProfileMutation.isPending}` on `button-save-profile`. -/
def saveProfileDisabled (s : DialogState) : Bool := s.profilePending

/-- The label of `button-save-profile`. -/
def saveProfileLabel (s : DialogState) : String :=
  if s.profilePending then "Saving..." else "Save Changes"

/-- `disabled={updatePasswordMutation.isPending}` on `button-update-password`. -/
def updatePinDisabled (s : DialogState) : Bool := s.passwordPending

/-- The label of `button-update-password`. -/
def updatePinLabel (s : DialogState) : String :=
  if s.passwordPending then "Updating..." else "Update PIN"

/-! ## Example states and records (used by witnesses) -/

/-- Dialog open on the profile tab of the edit surface. -/
def editProfileState : DialogState :=
  { initialState with dialogOpen := true, mode := Mode.edit Tab.profile }

/-- Dialog open on the password tab of the edit surface. -/
def editPinState : DialogState :=
  { initialState with dialogOpen := true, mode := Mode.edit Tab.password }

/-- Edit-profile state with the profile mutation in flight. -/
def pendingProfileState : DialogState :=
  { editProfileState with profilePending := true }

/-- Edit-PIN state with the PIN mutation in flight. -/
def pendingPinState : DialogState :=
  { editPinState with
      passwordForm := { currentPassword := "1", newPassword := "abcd", confirmPassword := "abcd" },
      passwordPending := true }

/-- A confirmed server response. -/
def recordJane : UserProfile :=
  { fullName := some "Jane", email := some "jane@x.com", mobile := some "555",
    lastLogin := none }

/-- A stale fetch result. -/
def recordOld : UserProfile :=
  { fullName := some "Old", email := none, mobile := none, lastLogin := none }

/-! ## Claim theorems -/

/-- C1: every successful profile-update mutation invalidates the cached
record under the key of the current user id, replaces the profile form
field-by-field with the response's confirmed values (absent fields
becoming `""`), emits exactly one success toast, and moves the mode to
View. -/
theorem profile_update_success_effects (uid : String) (s : DialogState) (d : UserProfile)
    (h : s.profilePending = true) :
    (step uid s (Event.profileSuccess d)).2.invalidations = [profileQueryKey uid] ∧
    (step uid s (Event.profileSuccess d)).1.profileForm =
      { fullName := d.fullName.getD "", email := d.email.getD "", mobile := d.mobile.getD "" } ∧
    (step uid s (Event.profileSuccess d)).2.toasts = [profileSuccessToast] ∧
    (step uid s (Event.profileSuccess d)).1.mode = Mode.view := by
  simp [step, h, formOfRecord, orEmpty]

/-- C1 witness: the P3 scenario, at a concrete pending state and the
concrete response `{fullName: "Jane", email: "jane@x.com", mobile: "555"}`. -/
theorem profile_update_success_effects_witness :
    (step "u1" pendingProfileState (Event.profileSuccess recordJane)).2.invalidations =
      [profileQueryKey "u1"] ∧
    (step "u1" pendingProfileState (Event.profileSuccess recordJane)).1.profileForm =
      { fullName := "Jane", email := "jane@x.com", mobile := "555" } ∧
    (step "u1" pendingProfileState (Event.profileSuccess recordJane)).2.toasts =
      [profileSuccessToast] ∧
    (step "u1" pendingProfileState (Event.profileSuccess recordJane)).1.mode = Mode.view :=
  profile_update_success_effects "u1" pendingProfileState recordJane rfl

/-- C3: whenever a fetched `ProfileRecord` arrives, the profile form is
unconditionally overwritten with the record's fields (absent ones
becoming `""`); in particular a fetch resolving after the user typed
into the full-name field replaces the typed value (last-write-wins). -/
theorem profile_sync_last_write_wins (uid : String) (s : DialogState) (r : UserProfile) :
    ((step uid s (Event.fetchResolved r)).1.profileForm =
      { fullName := r.fullName.getD "", email := r.email.getD "", mobile := r.mobile.getD "" }) ∧
    ∀ v : String, s.dialogOpen = true → s.mode = Mode.edit Tab.profile →
      (step uid s (Event.typeProfile ProfileField.fullName v)).1.profileForm.fullName = v ∧
      (step uid (step uid s (Event.typeProfile ProfileField.fullName v)).1
        (Event.fetchResolved r)).1.profileForm.fullName = r.fullName.getD "" := by
  refine ⟨by simp [step, formOfRecord, orEmpty], fun v hopen hmode => ?_⟩
  constructor
  · simp [step, hopen, hmode, ProfileForm.setField]
  · simp [step, formOfRecord, orEmpty]

/-- C3 witness: the P7 race at a concrete state — the user types "New",
then the stale fetch `{fullName: "Old"}` resolves and overwrites it. -/
theorem profile_sync_last_write_wins_witness :
    (step "u1" editProfileState (Event.typeProfile ProfileField.fullName "New")).1.profileForm.fullName
      = "New" ∧
    (step "u1" (step "u1" editProfileState (Event.typeProfile ProfileField.fullName "New")).1
      (Event.fetchResolved recordOld)).1.profileForm.fullName = "Old" :=
  (profile_sync_last_write_wins "u1" editProfileState recordOld).2 "New" rfl rfl

/-- C4: every failed profile-update mutation emits exactly one
destructive toast carrying the server message, leaves the profile form
and the mode unchanged, and issues no request and no invalidation (the
error is absorbed by the `onError` callback, never rethrown: `step` is
total and its only effect here is the toast). -/
theorem profile_update_failure_effects (uid : String) (s : DialogState) (msg : String)
    (h : s.profilePending = true) :
    (step uid s (Event.profileError msg)).2.toasts = [profileErrorToast msg] ∧
    (step uid s (Event.profileError msg)).1.profileForm = s.profileForm ∧
    (step uid s (Event.profileError msg)).1.mode = s.mode ∧
    (step uid s (Event.profileError msg)).2.requests = [] ∧
    (step uid s (Event.profileError msg)).2.invalidations = [] := by
  simp [step, h, Output.none]

/-- C4 witness: a failed update at a concrete pending edit-profile
state, with the server message "boom". -/
theorem profile_update_failure_effects_witness :
    (step "u1" pendingProfileState (Event.profileError "boom")).2.toasts =
      [profileErrorToast "boom"] ∧
    (step "u1" pendingProfileState (Event.profileError "boom")).1.profileForm =
      pendingProfileState.profileForm ∧
    (step "u1" pendingProfileState (Event.profileError "boom")).1.mode =
      pendingProfileState.mode ∧
    (step "u1" pendingProfileState (Event.profileError "boom")).2.requests = [] ∧
    (step "u1" pendingProfileState (Event.profileError "boom")).2.invalidations = [] :=
  profile_update_failure_effects "u1" pendingProfileState "boom" rfl

/-- C5: every successful PIN-update mutation resets the password form to
`{"", "", ""}`, emits exactly one success toast, moves the mode to View,
and requests no cache invalidation. -/
theorem pin_update_success_effects (uid : String) (s : DialogState)
    (h : s.passwordPending = true) :
    (step uid s Event.passwordSuccess).1.passwordForm =
      { currentPassword := "", newPassword := "", confirmPassword := "" } ∧
    (step uid s Event.passwordSuccess).2.toasts = [pinSuccessToast] ∧
    (step uid s Event.passwordSuccess).1.mode = Mode.view ∧
    (step uid s Event.passwordSuccess).2.invalidations = [] := by
  simp [step, h, defaultPasswordForm, Output.none]

/-- C5 witness: a successful PIN update at a concrete pending edit-PIN
state. -/
theorem pin_update_success_effects_witness :
    (step "u1" pendingPinState Event.passwordSuccess).1.passwordForm =
      { currentPassword := "", newPassword := "", confirmPassword := "" } ∧
    (step "u1" pendingPinState Event.passwordSuccess).2.toasts = [pinSuccessToast] ∧
    (step "u1" pendingPinState Event.passwordSuccess).1.mode = Mode.view ∧
    (step "u1" pendingPinState Event.passwordSuccess).2.invalidations = [] :=
  pin_update_success_effects "u1" pendingPinState (by decide)

/-- A string passes a `min(1)` check exactly when it is non-empty. -/
theorem one_le_length_iff (s : String) : 1 ≤ s.length ↔ s ≠ "" := by
  rw [Nat.one_le_iff_ne_zero]
  constructor
  · intro h hs
    subst hs
    exact h rfl
  · intro h hlen
    apply h
    cases s with
    | mk data =>
      cases data with
      | nil => rfl
      | cons a l => simp [String.length] at hlen

/-- A PIN form with mismatching PINs, used by the C2 witness. -/
def pinMismatchForm : PasswordForm :=
  { currentPassword := "1", newPassword := "abcd", confirmPassword := "abce" }

/-- Edit-PIN state holding [[pinMismatchForm]]. -/
def pinMismatchState : DialogState :=
  { editPinState with passwordForm := pinMismatchForm }

/-- C2: the PIN form validates exactly when `currentPin` is non-empty,
`newPin` has length at least 4, `confirmPin` is non-empty and the two
new PINs agree; a mismatch produces the "PINs don't match" issue
attached to the `confirmPassword` field (and to no other field); and a
submission whose validation fails issues no request. -/
theorem pin_validation_and_gate (f : PasswordForm) :
    (passwordSchemaErrors f = [] ↔
      (f.currentPassword ≠ "" ∧ 4 ≤ f.newPassword.length ∧ f.confirmPassword ≠ "" ∧
        f.newPassword = f.confirmPassword)) ∧
    (f.newPassword ≠ f.confirmPassword →
      ({ field := "confirmPassword", message := "PINs don't match" } : FieldError) ∈
        passwordSchemaErrors f ∧
      ∀ e ∈ passwordSchemaErrors f, e.message = "PINs don't match" →
        e.field = "confirmPassword") ∧
    (∀ (uid : String) (s : DialogState), s.passwordForm = f →
      passwordSchemaErrors f ≠ [] → (step uid s Event.submitPassword).2.requests = []) := by
  refine ⟨?_, fun hne => ⟨?_, ?_⟩, ?_⟩
  · unfold passwordSchemaErrors
    split_ifs with h1 h2 h3 h4 <;> simp_all [one_le_length_iff]
  · unfold passwordSchemaErrors
    simp [hne]
  · intro e he hmsg
    simp only [passwordSchemaErrors, List.mem_append] at he
    rcases he with ((h | h) | h) | h <;> split at h <;> simp_all
  · intro uid s hform herr
    subst hform
    cases herrs : passwordSchemaErrors s.passwordForm with
    | nil => exact absurd herrs herr
    | cons a t =>
        simp only [step]
        split
        · simp [herrs, Output.none]
        · simp [Output.none]

/-- C2 witness: at the mismatching form `("1", "abcd", "abce")`, the
mismatch issue is attached to `confirmPassword` and the submission
issues no request. -/
theorem pin_validation_and_gate_witness :
    (({ field := "confirmPassword", message := "PINs don't match" } : FieldError) ∈
      passwordSchemaErrors pinMismatchForm) ∧
    (step "u1" pinMismatchState Event.submitPassword).2.requests = [] :=
  ⟨((pin_validation_and_gate pinMismatchForm).2.1 (by decide)).1,
   (pin_validation_and_gate pinMismatchForm).2.2 "u1" pinMismatchState rfl (by decide)⟩

/-- C7: the profile form fails validation exactly when its email is
non-empty and outside the email grammar; `""` and an absent email are
valid; `fullName` and `mobile` do not influence the verdict; and a
submission whose validation fails issues no request. -/
theorem profile_validation_and_gate (f : ProfileForm) :
    (profileSchemaErrors f ≠ [] ↔ (f.email ≠ "" ∧ isValidEmail f.email = false)) ∧
    (∀ fn mb : Option String,
      profileSchemaIssues fn (some "") mb = [] ∧ profileSchemaIssues fn none mb = []) ∧
    (∀ fn fn₂ mb mb₂ em : Option String,
      profileSchemaIssues fn em mb = profileSchemaIssues fn₂ em mb₂) ∧
    (∀ (uid : String) (s : DialogState), s.profileForm = f →
      profileSchemaErrors f ≠ [] → (step uid s Event.submitProfile).2.requests = []) := by
  refine ⟨?_, fun fn mb => ⟨rfl, rfl⟩, fun fn fn₂ mb mb₂ em => rfl, ?_⟩
  · simp only [profileSchemaErrors, profileSchemaIssues, emailFieldErrors]
    split_ifs with h <;> simp_all
    tauto
  · intro uid s hform herr
    subst hform
    cases herrs : profileSchemaErrors s.profileForm with
    | nil => exact absurd herrs herr
    | cons a t =>
        simp only [step]
        split
        · simp [herrs, Output.none]
        · simp [Output.none]

/-- A profile form with a syntactically invalid email, used by the C7
witness. -/
def badEmailForm : ProfileForm :=
  { fullName := "Jane", email := "not-an-email", mobile := "555" }

/-- Edit-profile state holding [[badEmailForm]]. -/
def badEmailState : DialogState :=
  { editProfileState with profileForm := badEmailForm }

/-- C7 witness: at the form with email `"not-an-email"`, validation
fails and the submission issues no request; the empty email is valid. -/
theorem profile_validation_and_gate_witness :
    profileSchemaErrors badEmailForm ≠ [] ∧
    (step "u1" badEmailState Event.submitProfile).2.requests = [] ∧
    profileSchemaIssues (some "Jane") (some "") (some "555") = [] :=
  ⟨(profile_validation_and_gate badEmailForm).1.mpr (by decide),
   (profile_validation_and_gate badEmailForm).2.2.2 "u1" badEmailState rfl
     ((profile_validation_and_gate badEmailForm).1.mpr (by decide)),
   ((profile_validation_and_gate badEmailForm).2.1 (some "Jane") (some "555")).1⟩

/-- C6: closing the dialog from any state resets the mode to View and
clears the PIN form; re-opening afterwards still shows View with the PIN
form clear; and a successful PIN update also clears the PIN form — so
the PIN form survives neither a close nor a successful update (I3). -/
theorem close_resets_mode_and_pin (uid : String) (s : DialogState) :
    ((step uid s (Event.hostSetOpen false)).1.mode = Mode.view) ∧
    ((step uid s (Event.hostSetOpen false)).1.passwordForm =
      { currentPassword := "", newPassword := "", confirmPassword := "" }) ∧
    ((step uid (step uid s (Event.hostSetOpen false)).1 (Event.hostSetOpen true)).1.mode =
      Mode.view) ∧
    ((step uid (step uid s (Event.hostSetOpen false)).1
        (Event.hostSetOpen true)).1.passwordForm =
      { currentPassword := "", newPassword := "", confirmPassword := "" }) ∧
    (s.passwordPending = true →
      (step uid s Event.passwordSuccess).1.passwordForm =
        { currentPassword := "", newPassword := "", confirmPassword := "" }) := by
  refine ⟨by simp [step], by simp [step, defaultPasswordForm], by simp [step],
    by simp [step, defaultPasswordForm], fun h => by simp [step, h, defaultPasswordForm]⟩

/-- C6 witness: the P6 scenario — closing while on the PIN tab with a
partially filled, pending PIN form, plus the PIN-success reset. -/
theorem close_resets_mode_and_pin_witness :
    ((step "u1" pendingPinState (Event.hostSetOpen false)).1.mode = Mode.view) ∧
    ((step "u1" pendingPinState (Event.hostSetOpen false)).1.passwordForm =
      { currentPassword := "", newPassword := "", confirmPassword := "" }) ∧
    ((step "u1" pendingPinState Event.passwordSuccess).1.passwordForm =
      { currentPassword := "", newPassword := "", confirmPassword := "" }) :=
  ⟨(close_resets_mode_and_pin "u1" pendingPinState).1,
   (close_resets_mode_and_pin "u1" pendingPinState).2.1,
   (close_resets_mode_and_pin "u1" pendingPinState).2.2.2.2 (by decide)⟩

/-- C8: a validated PIN submission issues exactly one request, addressed
by the current user id and carrying exactly `currentPin` and `newPin`;
moreover any request a PIN submission ever issues, from any state, is of
that two-field shape — the `confirmPassword` field has no place in the
payload. -/
theorem pin_request_payload (uid : String) (s : DialogState)
    (hopen : s.dialogOpen = true) (hmode : s.mode = Mode.edit Tab.password)
    (hpend : s.passwordPending = false)
    (hvalid : passwordSchemaErrors s.passwordForm = []) :
    ((step uid s Event.submitPassword).2.requests =
      [Request.patchPassword ("/api/users/" ++ uid ++ "/password")
        s.passwordForm.currentPassword s.passwordForm.newPassword]) ∧
    ∀ (s₂ : DialogState) (req : Request),
      req ∈ (step uid s₂ Event.submitPassword).2.requests →
      req = Request.patchPassword ("/api/users/" ++ uid ++ "/password")
        s₂.passwordForm.currentPassword s₂.passwordForm.newPassword := by
  constructor
  · simp [step, hopen, hmode, hpend, hvalid, Output.none]
  · intro s₂ req hreq
    simp only [step] at hreq
    split at hreq
    · split at hreq
      · simp_all
      · simp [Output.none] at hreq
    · simp [Output.none] at hreq

/-- Edit-PIN state holding a fully valid PIN form, used by the C8
witness. -/
def validPinState : DialogState :=
  { editPinState with
      passwordForm := { currentPassword := "1", newPassword := "abcd",
                        confirmPassword := "abcd" } }

/-- C8 witness: at a concrete valid PIN form `("1", "abcd", "abcd")`,
the submission sends exactly
`PATCH /api/users/u1/password {currentPin: "1", newPin: "abcd"}`. -/
theorem pin_request_payload_witness :
    (step "u1" validPinState Event.submitPassword).2.requests =
      [Request.patchPassword "/api/users/u1/password" "1" "abcd"] :=
  (pin_request_payload "u1" validPinState rfl rfl rfl (by decide)).1

/-- C9: while a pipeline's mutation is pending its own submit button is
disabled, its label shows the in-progress variant, and a submit event on
it is a complete no-op (no request, no state change); each button's
disabled flag depends only on its own pipeline's pending flag, so one
pipeline's pending state never disables the other's control. -/
theorem pending_excludes_second_submit (uid : String) (s : DialogState) :
    (s.profilePending = true →
      saveProfileDisabled s = true ∧ saveProfileLabel s = "Saving..." ∧
      step uid s Event.submitProfile = (s, Output.none)) ∧
    (s.passwordPending = true →
      updatePinDisabled s = true ∧ updatePinLabel s = "Updating..." ∧
      step uid s Event.submitPassword = (s, Output.none)) ∧
    (∀ b : Bool, saveProfileDisabled { s with passwordPending := b } = saveProfileDisabled s) ∧
    (∀ b : Bool, updatePinDisabled { s with profilePending := b } = updatePinDisabled s) := by
  refine ⟨fun h => ⟨?_, ?_, ?_⟩, fun h => ⟨?_, ?_, ?_⟩, fun b => rfl, fun b => rfl⟩
  · simp [saveProfileDisabled, h]
  · simp [saveProfileLabel, h]
  · simp [step, h]
  · simp [updatePinDisabled, h]
  · simp [updatePinLabel, h]
  · simp [step, h]

/-- C9 witness: at concrete pending states, each pipeline's submit is a
no-op while its own label shows progress, and the other pipeline's
button stays enabled. -/
theorem pending_excludes_second_submit_witness :
    (step "u1" pendingProfileState Event.submitProfile = (pendingProfileState, Output.none)) ∧
    saveProfileLabel pendingProfileState = "Saving..." ∧
    updatePinDisabled pendingProfileState = false ∧
    (step "u1" pendingPinState Event.submitPassword = (pendingPinState, Output.none)) ∧
    saveProfileDisabled pendingPinState = false :=
  ⟨((pending_excludes_second_submit "u1" pendingProfileState).1 (by decide)).2.2,
   ((pending_excludes_second_submit "u1" pendingProfileState).1 (by decide)).2.1,
   by decide,
   ((pending_excludes_second_submit "u1" pendingPinState).2.1 (by decide)).2.2,
   by decide⟩

/-- C10: closing the dialog leaves the profile form untouched; it is
still there after re-opening, and only a fresh fetch of the profile
record overwrites it. -/
theorem close_preserves_profile_form (uid : String) (s : DialogState) :
    ((step uid s (Event.hostSetOpen false)).1.profileForm = s.profileForm) ∧
    ((step uid (step uid s (Event.hostSetOpen false)).1
        (Event.hostSetOpen true)).1.profileForm = s.profileForm) ∧
    ∀ r : UserProfile,
      (step uid (step uid (step uid s (Event.hostSetOpen false)).1
          (Event.hostSetOpen true)).1 (Event.fetchResolved r)).1.profileForm =
        formOfRecord r := by
  refine ⟨by simp [step], by simp [step], fun r => by simp [step]⟩

end UserProfileModal
